import Mathlib

/-!
Verification development for the ID-Card-Generator program (src/main.py).

The Python source is shallowly embedded: `render_card` becomes a pure
function returning a trace of its drawing / filesystem effects,
`process_csv` becomes a function over a parsed CSV value (header row plus
data rows, with the semantics of Python's csv.DictReader made explicit),
and `cli` becomes a function from parsed arguments, the list of stdin
lines, and the file system contents to an outcome recording the renders
performed and the exit status.
-/

set_option maxRecDepth 4000

/-- Model of Python str.strip on the underlying character list:
drop whitespace characters from the front, then from the back. -/
def stripChars (l : List Char) : List Char :=
  (l.dropWhile Char.isWhitespace).rdropWhile Char.isWhitespace

/-- Model of Python str.strip (no arguments): remove leading and trailing
whitespace. -/
def pyStrip (s : String) : String :=
  String.mk (stripChars s.data)

/-- Model of Python str.upper, character-wise on the underlying list (the
program only upper-cases plain text). -/
def pyUpper (s : String) : String :=
  String.mk (s.data.map Char.toUpper)

/-- Model of Python s.replace(" ", "_"): with a one-character pattern this
is a character-wise map. -/
def underscoreName (s : String) : String :=
  String.mk (s.data.map (fun c => if c = ' ' then '_' else c))

/-- An RGB color, as in the source's (r, g, b) tuples. -/
abbrev Color := Nat × Nat × Nat

def CARD_WIDTH : Nat := 1000

def CARD_HEIGHT : Nat := 600

def BG_COLOR : Color := (245, 245, 245)

def TEXT_COLOR : Color := (20, 20, 20)

def ACCENT : Color := (0, 90, 160)

/-- The three font objects of the source (FONT_TITLE, FONT_LABEL,
FONT_VALUE); only their identity matters for the drawing trace. -/
inductive FontKind where
  | title
  | label
  | value
deriving DecidableEq, Repr

/-- The record schema (class CardData, a TypedDict with six string
fields). -/
structure CardData where
  company : String
  name : String
  gender : String
  dob : String
  mobile : String
  address : String
deriving DecidableEq, Repr

/-- One drawing / pasting operation performed on the canvas. -/
inductive Op where
  | rect (x0 y0 x1 y1 : Nat) (fill : Color)
  | text (x y : Nat) (s : String) (font : FontKind) (fill : Color)
  | paste (x y w h : Nat) (payload : String)
  | line (x0 y0 x1 y1 : Nat) (fill : Color) (width : Nat)
deriving DecidableEq, Repr

/-- draw_label: draw text in the label font, filled with the accent
color. -/
def draw_label (x y : Nat) (s : String) : Op :=
  Op.text x y s FontKind.label ACCENT

/-- draw_value: draw text in the value font, filled with the primary text
color. -/
def draw_value (x y : Nat) (s : String) : Op :=
  Op.text x y s FontKind.value TEXT_COLOR

/-- Local constant panel_w of render_card. -/
def panel_w : Nat := 260

/-- Local constant brand_y of render_card. -/
def brand_y : Nat := 40

/-- Local constant x_offset = panel_w + 40 of render_card. -/
def x_offset : Nat := panel_w + 40

/-- Local constant y_start of render_card. -/
def y_start : Nat := 60

/-- Local constant row_gap of render_card. -/
def row_gap : Nat := 55

/-- The fields list of render_card: the five label/value pairs, in source
order. -/
def fieldPairs (data : CardData) : List (String × String) :=
  [("Name", data.name),
   ("Gender", data.gender),
   ("D.O.B.", data.dob),
   ("Mobile", data.mobile),
   ("Address", data.address)]

/-- The for-loop of render_card over the fields list: at each row draw the
upper-cased label at x_offset and the value 250 units to its right, then
advance y by row_gap. -/
def fieldOps : List (String × String) → Nat → List Op
  | [], _ => []
  | (label, value) :: rest, y =>
      draw_label x_offset y (pyUpper label) ::
      draw_value (x_offset + 250) y value ::
      fieldOps rest (y + row_gap)

/-- The QR payload f-string of render_card: company, name, separated and
terminated by a vertical bar. -/
def qrPayload (data : CardData) : String :=
  data.company ++ "|" ++ data.name ++ "|"

/-- The effects of one render_card call: the directory ensured to exist
(with parents=True, exist_ok=True), the canvas, the ordered drawing
operations, the path the PNG is saved to, and the returned path. -/
structure RenderResult where
  ensuredDir : String
  ensureParents : Bool
  ensureExistOk : Bool
  canvasW : Nat
  canvasH : Nat
  canvasBg : Color
  ops : List Op
  savedPath : String
  returned : String
deriving DecidableEq, Repr

/-- render_card(data, outdir): mkdir the output directory, draw the side
panel, the upper-cased company title, the five label/value rows, paste the
resized 200x200 QR code at (CARD_WIDTH - 250, CARD_HEIGHT - 250), draw the
divider line, save to outdir/<name with spaces replaced by underscores>.png
and return that path. -/
def render_card (data : CardData) (outdir : String) : RenderResult :=
  { ensuredDir := outdir
    ensureParents := true
    ensureExistOk := true
    canvasW := CARD_WIDTH
    canvasH := CARD_HEIGHT
    canvasBg := BG_COLOR
    ops :=
      Op.rect 0 0 panel_w CARD_HEIGHT ACCENT ::
      Op.text 40 brand_y (pyUpper data.company) FontKind.title (0, 0, 0) ::
      (fieldOps (fieldPairs data) (y_start + 120) ++
        [Op.paste (CARD_WIDTH - 250) (CARD_HEIGHT - 250) 200 200
          (qrPayload data),
         Op.line panel_w (CARD_HEIGHT - 40) (CARD_WIDTH - 40)
           (CARD_HEIGHT - 40) ACCENT 4])
    savedPath := outdir ++ "/" ++ underscoreName data.name ++ ".png"
    returned := outdir ++ "/" ++ underscoreName data.name ++ ".png" }

/-!
CSV model.  A parsed CSV file is its header row (the first line, which
csv.DictReader takes as the field names) and its data rows, each a list of
cell strings.  Python's DictReader builds dict(zip(fieldnames, row)),
fills missing trailing cells with restval = None, gathers extra cells
under restkey = None (so they are invisible to lookups by column name),
and skips rows parsed as the empty list (blank lines).
-/

/-- A parsed CSV file: header (field names) and data rows. -/
structure Csv where
  header : List String
  rows : List (List String)
deriving DecidableEq, Repr

/-- Index of the last occurrence of x in l, if any.  For duplicate header
names, dict(zip(fieldnames, row)) keeps the value of the last occurrence,
and the restval pass also assigns in order, so the last index decides. -/
def lastIdxOf : List String → String → Option Nat
  | [], _ => none
  | y :: ys, x =>
      match lastIdxOf ys x with
      | some i => some (i + 1)
      | none => if y = x then some 0 else none

/-- Value of column col in a DictReader row dict: outer none means the key
is absent (Python KeyError on row[col]); some none means the key maps to
Python None (a ragged row shorter than the header, filled with restval);
some (some v) is an ordinary cell. -/
def rowValue (header row : List String) (col : String) :
    Option (Option String) :=
  match lastIdxOf header col with
  | none => none
  | some i => some (row.get? i)

/-- The errors row[col].strip() can raise: KeyError when the column is not
among the field names, AttributeError when the cell is Python None (ragged
short row) and .strip is taken on it. -/
inductive CsvErr where
  | keyError (col : String)
  | noneStrip (col : String)
deriving DecidableEq, Repr

deriving instance DecidableEq for Except

/-- row[col] as evaluated inside the CardData(...) call of process_csv:
KeyError if the column is missing, AttributeError if the cell is None. -/
def getCell (header row : List String) (col : String) :
    Except CsvErr String :=
  match rowValue header row col with
  | none => Except.error (CsvErr.keyError col)
  | some none => Except.error (CsvErr.noneStrip col)
  | some (some v) => Except.ok v

/-- The cell of a column in a row, as a plain string (meaningful when the
lookup succeeds with an actual cell). -/
def cellOf (header row : List String) (col : String) : String :=
  ((rowValue header row col).getD none).getD ""

/-- The clean record built from one row when no error occurs: each field
is the stripped cell of its column (meaningful only when readRow below
succeeds). -/
def cleanRow (header row : List String) : CardData :=
  { company := pyStrip (cellOf header row "company")
    name := pyStrip (cellOf header row "name")
    gender := pyStrip (cellOf header row "gender")
    dob := pyStrip (cellOf header row "dob")
    mobile := pyStrip (cellOf header row "mobile")
    address := pyStrip (cellOf header row "address") }

/-- The CardData(...) construction of process_csv for one row: the six
keyword arguments row[col].strip() are evaluated in source order, and the
first failing lookup raises. -/
def readRow (header row : List String) : Except CsvErr CardData :=
  match getCell header row "company" with
  | Except.error e => Except.error e
  | Except.ok company =>
  match getCell header row "name" with
  | Except.error e => Except.error e
  | Except.ok name =>
  match getCell header row "gender" with
  | Except.error e => Except.error e
  | Except.ok gender =>
  match getCell header row "dob" with
  | Except.error e => Except.error e
  | Except.ok dob =>
  match getCell header row "mobile" with
  | Except.error e => Except.error e
  | Except.ok mobile =>
  match getCell header row "address" with
  | Except.error e => Except.error e
  | Except.ok address =>
    Except.ok
      { company := pyStrip company
        name := pyStrip name
        gender := pyStrip gender
        dob := pyStrip dob
        mobile := pyStrip mobile
        address := pyStrip address }

/-- The for-loop of process_csv: render each row in file order; an
uncaught exception aborts the loop, so the result is the records rendered
so far together with the first error, if any. -/
def processRows (header : List String) :
    List (List String) → List CardData × Option CsvErr
  | [] => ([], none)
  | row :: rest =>
      match readRow header row with
      | Except.error e => ([], some e)
      | Except.ok d =>
          match processRows header rest with
          | (ds, err) => (d :: ds, err)

/-- process_csv(path, outdir) on the parsed contents of the file: blank
lines (rows parsed as the empty list) are skipped by DictReader, every
other row is rendered in order until the first uncaught error.  The
returned list is the sequence of records passed to render_card. -/
def process_csv (c : Csv) : List CardData × Option CsvErr :=
  processRows c.header (c.rows.filter (fun r => !r.isEmpty))

/-!
CLI model.  argparse yields an Args value (absent optional flags are
none; --out defaults to "output"; --single is store_true).  stdin is a
list of lines; the file system is a function from paths to parsed CSV
contents.  The outcome records the render_card invocations performed and
how the process ends.
-/

/-- The parsed argparse namespace. -/
structure Args where
  input : Option String
  out : String
  single : Bool
  company : Option String
  name : Option String
  gender : Option String
  dob : Option String
  mobile : Option String
  address : Option String
deriving DecidableEq, Repr

/-- Python truthiness of an optional string flag: truthy iff present and
non-empty (the any([args.input, args.single]) test). -/
def pyTruthy : Option String → Bool
  | none => false
  | some s => !(s == "")

/-- The mode the if-chain of cli selects: interactive when neither
args.input is truthy nor args.single is set, else single when args.single
is set, else CSV when args.input is truthy, else the final raise. -/
inductive Mode where
  | interactive
  | single
  | csv
  | fallback
deriving DecidableEq, Repr

/-- The if-chain of cli, in source order. -/
def selectMode (a : Args) : Mode :=
  if !(pyTruthy a.input || a.single) then Mode.interactive
  else if a.single then Mode.single
  else if pyTruthy a.input then Mode.csv
  else Mode.fallback

/-- getattr(args, r) for the six required field names. -/
def argField (a : Args) : String → Option String
  | "company" => a.company
  | "name" => a.name
  | "gender" => a.gender
  | "dob" => a.dob
  | "mobile" => a.mobile
  | "address" => a.address
  | _ => none

/-- The required list of single mode (and the fields list of interactive
mode), in source order. -/
def requiredFields : List String :=
  ["company", "name", "gender", "dob", "mobile", "address"]

/-- missing = [r for r in required if getattr(args, r) is None]. -/
def missingFields (a : Args) : List String :=
  requiredFields.filter (fun r => (argField a r).isNone)

/-- Python repr of a list of strings, as interpolated by the f-string
of the missing-fields message. -/
def pyReprStrList (l : List String) : String :=
  "[" ++ String.intercalate ", " (l.map (fun s => "\x27" ++ s ++ "\x27"))
    ++ "]"

/-- The CardData(...) of single mode: the six flag values, passed through
verbatim (they are known non-None when this is built). -/
def singleData (a : Args) : CardData :=
  { company := a.company.getD ""
    name := a.name.getD ""
    gender := a.gender.getD ""
    dob := a.dob.getD ""
    mobile := a.mobile.getD ""
    address := a.address.getD "" }

/-- The prompt printed for field f: f-string "Enter {f.upper()}: ". -/
def promptOf (f : String) : String :=
  "Enter " ++ pyUpper f ++ ": "

/-- The while-True loop of interactive mode for one field: print the
prompt, read a line, strip it; an empty result re-asks, a non-empty result
is accepted.  Returns the prompts printed and, unless stdin ran out (in
Python input() raises EOFError after printing the prompt), the accepted
value and the remaining lines. -/
def askFieldLoop (f : String) :
    List String → List String × Option (String × List String)
  | [] => ([promptOf f], none)
  | l :: rest =>
      if pyStrip l = "" then
        match askFieldLoop f rest with
        | (ps, r) => (promptOf f :: ps, r)
      else ([promptOf f], some (pyStrip l, rest))

/-- data[f] = v for one of the six field names. -/
def setField (d : CardData) (f v : String) : CardData :=
  match f with
  | "company" => { d with company := v }
  | "name" => { d with name := v }
  | "gender" => { d with gender := v }
  | "dob" => { d with dob := v }
  | "mobile" => { d with mobile := v }
  | "address" => { d with address := v }
  | _ => d

/-- The for-loop of interactive mode over the fields list: ask each field
in turn, assigning the accepted value into the record. -/
def fillFields (d : CardData) :
    List String → List String →
      List String × Option (CardData × List String)
  | [], lines => ([], some (d, lines))
  | f :: fs, lines =>
      match askFieldLoop f lines with
      | (ps, none) => (ps, none)
      | (ps, some (v, rest)) =>
          match fillFields (setField d f v) fs rest with
          | (ps2, r) => (ps ++ ps2, r)

/-- Interactive mode: start from the all-empty record and fill the six
fields in order from stdin.  Returns the prompts printed and, if stdin
sufficed, the completed record and the unconsumed lines. -/
def interactiveRun (lines : List String) :
    List String × Option (CardData × List String) :=
  fillFields
    { company := "", name := "", gender := "", dob := "", mobile := ""
      address := "" }
    requiredFields lines

/-- How the process ends: normal exit 0, SystemExit with a message
(non-zero status), an uncaught CSV-row exception, or EOFError from
input(). -/
inductive ExitStatus where
  | ok
  | err (msg : String)
  | csvErr (e : CsvErr)
  | eofError
deriving DecidableEq, Repr

/-- The observable outcome of one cli run: the render_card invocations
performed (record and output directory, in order) and the exit status. -/
structure CliOutcome where
  renders : List (CardData × String)
  exit : ExitStatus
deriving DecidableEq, Repr

/-- Outcome of CSV mode, from the result of process_csv: each produced
record is rendered into the output directory; an uncaught row error makes
the process die with that exception after the earlier renders. -/
def csvOutcome (p : List CardData × Option CsvErr) (out : String) :
    CliOutcome :=
  match p with
  | (ds, none) =>
      { renders := ds.map (fun d => (d, out)), exit := ExitStatus.ok }
  | (ds, some e) =>
      { renders := ds.map (fun d => (d, out))
        exit := ExitStatus.csvErr e }

/-- cli(): parse arguments, pick the mode, and run it.  stdin is the list
of input lines; fs maps a path to the parsed contents of the CSV file at
that path. -/
def cli (a : Args) (stdin : List String) (fs : String → Csv) :
    CliOutcome :=
  match selectMode a with
  | Mode.interactive =>
      match interactiveRun stdin with
      | (_, none) => { renders := [], exit := ExitStatus.eofError }
      | (_, some (d, _)) =>
          { renders := [(d, a.out)], exit := ExitStatus.ok }
  | Mode.single =>
      match missingFields a with
      | [] =>
          { renders := [(singleData a, a.out)], exit := ExitStatus.ok }
      | m =>
          { renders := []
            exit := ExitStatus.err
              ("Missing fields: " ++ pyReprStrList m) }
  | Mode.csv =>
      csvOutcome (process_csv (fs (a.input.getD ""))) a.out
  | Mode.fallback =>
      { renders := []
        exit := ExitStatus.err "Provide --input csv or --single mode." }

/-!
Theorems for the claims about render_card.
-/

/-- Claim C1: for every record and output directory, render_card first
ensures the output directory exists (creating parent directories as
needed), saves the canvas as a PNG named exactly the record's name with
every space replaced by an underscore plus the extension .png inside that
directory, and returns the path of that saved file. -/
theorem render_card_saves_and_returns (data : CardData) (outdir : String) :
    (render_card data outdir).ensuredDir = outdir ∧
    (render_card data outdir).ensureParents = true ∧
    (render_card data outdir).ensureExistOk = true ∧
    (render_card data outdir).savedPath =
      outdir ++ "/" ++ underscoreName data.name ++ ".png" ∧
    (render_card data outdir).returned =
      (render_card data outdir).savedPath :=
  ⟨rfl, rfl, rfl, rfl, rfl⟩

/-- Claim C8: render_card draws the five label/value pairs Name, Gender,
D.O.B., Mobile, Address top-to-bottom starting at x = panel width + 40 and
y = 180 with vertical spacing 55, each label upper-cased in the accent
color, each value in the primary text color 250 units to the right of its
label. -/
theorem render_card_field_rows (data : CardData) (outdir : String) :
    x_offset = panel_w + 40 ∧
    row_gap = 55 ∧
    ((render_card data outdir).ops.drop 2).take 10 =
      [Op.text 300 180 "NAME" FontKind.label ACCENT,
       Op.text 550 180 data.name FontKind.value TEXT_COLOR,
       Op.text 300 235 "GENDER" FontKind.label ACCENT,
       Op.text 550 235 data.gender FontKind.value TEXT_COLOR,
       Op.text 300 290 "D.O.B." FontKind.label ACCENT,
       Op.text 550 290 data.dob FontKind.value TEXT_COLOR,
       Op.text 300 345 "MOBILE" FontKind.label ACCENT,
       Op.text 550 345 data.mobile FontKind.value TEXT_COLOR,
       Op.text 300 400 "ADDRESS" FontKind.label ACCENT,
       Op.text 550 400 data.address FontKind.value TEXT_COLOR] :=
  ⟨rfl, rfl, rfl⟩

/-- Claim C9: render_card generates a QR code encoding exactly
company, vertical bar, name, vertical bar (trailing separator included),
renders it at 200x200 units and pastes it into the bottom-right corner of
the 1000x600 canvas, inset 250 units from the right and bottom edges,
which leaves a 50-unit margin beyond the pasted 200-unit square. -/
theorem render_card_qr (data : CardData) (outdir : String) :
    (render_card data outdir).ops.get? 12 =
      some (Op.paste (CARD_WIDTH - 250) (CARD_HEIGHT - 250) 200 200
        (qrPayload data)) ∧
    qrPayload data = data.company ++ "|" ++ data.name ++ "|" ∧
    (render_card data outdir).canvasW = 1000 ∧
    (render_card data outdir).canvasH = 600 ∧
    CARD_WIDTH - 250 = 750 ∧
    CARD_HEIGHT - 250 = 350 ∧
    750 + 200 + 50 = CARD_WIDTH ∧
    350 + 200 + 50 = CARD_HEIGHT :=
  ⟨rfl, rfl, rfl, rfl, rfl, rfl, rfl, rfl⟩

/-- Claim C10: the saved path of render_card depends only on the record's
name (given the same output directory), and the QR payload depends only on
the company and name fields, never on gender, dob, mobile or address. -/
theorem render_card_noninterference (r1 r2 : CardData) (out : String)
    (hn : r1.name = r2.name) :
    (render_card r1 out).savedPath = (render_card r2 out).savedPath ∧
    (r1.company = r2.company → qrPayload r1 = qrPayload r2) := by
  constructor
  · simp only [render_card, underscoreName, hn]
  · intro hc
    simp only [qrPayload, hn, hc]

/-- Witness for claim C10: two records agreeing on company and name but
differing in every other field share the saved path and the QR payload. -/
theorem render_card_noninterference_witness :
    (render_card
        { company := "Acme", name := "Jane Doe", gender := "F"
          dob := "1990-01-01", mobile := "5551234", address := "1 Main St" }
        "output").savedPath =
      (render_card
        { company := "Acme", name := "Jane Doe", gender := "M"
          dob := "1991-02-02", mobile := "5559999", address := "2 Elm St" }
        "output").savedPath ∧
    (("Acme" : String) = "Acme" →
      qrPayload
        { company := "Acme", name := "Jane Doe", gender := "F"
          dob := "1990-01-01", mobile := "5551234", address := "1 Main St" } =
      qrPayload
        { company := "Acme", name := "Jane Doe", gender := "M"
          dob := "1991-02-02", mobile := "5559999", address := "2 Elm St" }) :=
  render_card_noninterference _ _ "output" rfl

/-!
Theorems for the claims about cli's single mode and mode selection.
-/

/-- Claim C3: in single mode, if any of the six field flags is omitted the
program exits non-zero with a message enumerating exactly the names of the
missing fields and render_card is never invoked; if all six are supplied,
exactly one card is rendered. -/
theorem cli_single_mode (a : Args) (stdin : List String)
    (fs : String → Csv) (h : a.single = true) :
    (∀ f, f ∈ missingFields a ↔ (f ∈ requiredFields ∧ argField a f = none)) ∧
    (missingFields a ≠ [] →
      cli a stdin fs =
        { renders := []
          exit := ExitStatus.err
            ("Missing fields: " ++ pyReprStrList (missingFields a)) }) ∧
    (missingFields a = [] →
      cli a stdin fs =
        { renders := [(singleData a, a.out)], exit := ExitStatus.ok }) := by
  refine ⟨?_, ?_, ?_⟩
  · intro f
    simp [missingFields, List.mem_filter, Option.isNone_iff_eq_none]
  · intro hne
    cases hm : missingFields a with
    | nil => exact absurd hm hne
    | cons x xs => simp [cli, selectMode, h, hm]
  · intro hm
    simp [cli, selectMode, h, hm]

/-- Witness for claim C3: omitting the name and mobile flags exits with
exactly those two field names in the message and no render; supplying all
six renders exactly one card. -/
theorem cli_single_mode_witness :
    cli
      { input := none, out := "output", single := true
        company := some "Acme", name := none, gender := some "F"
        dob := some "1990-01-01", mobile := none, address := some "1 Main St" }
      [] (fun _ => { header := [], rows := [] }) =
      { renders := []
        exit := ExitStatus.err
          "Missing fields: [\x27name\x27, \x27mobile\x27]" } ∧
    cli
      { input := none, out := "output", single := true
        company := some "Acme", name := some "Jane Doe", gender := some "F"
        dob := some "1990-01-01", mobile := some "5551234"
        address := some "1 Main St" }
      [] (fun _ => { header := [], rows := [] }) =
      { renders :=
          [({ company := "Acme", name := "Jane Doe", gender := "F"
              dob := "1990-01-01", mobile := "5551234"
              address := "1 Main St" }, "output")]
        exit := ExitStatus.ok } :=
  ⟨((cli_single_mode _ [] _ rfl).2.1 (by decide)).trans (by decide),
   ((cli_single_mode _ [] _ rfl).2.2 (by decide)).trans (by decide)⟩

/-- Counterexample to claim C4: with both a CSV path and the --single flag
supplied, cli selects single mode, not CSV mode, although a CSV file path
was supplied. -/
theorem selectMode_csv_whenever_path_counterexample :
    selectMode
        { input := some "cards.csv", out := "output", single := true
          company := none, name := none, gender := none, dob := none
          mobile := none, address := none } = Mode.single ∧
      Mode.single ≠ Mode.csv := by
  decide

/-- Claim C4 as amended: cli picks exactly one of three mutually exclusive
modes, but single mode is selected whenever the --single flag is set (even
if a CSV path is also supplied); CSV mode is selected exactly when a
non-empty CSV path is supplied and --single is not set, and then cli
delegates entirely to process_csv; interactive mode is selected exactly
when neither is given; the final error branch instructing the user to
supply one of the two inputs is unreachable. -/
theorem selectMode_three_modes (a : Args) (stdin : List String)
    (fs : String → Csv) :
    (selectMode a = Mode.single ↔ a.single = true) ∧
    (selectMode a = Mode.csv ↔
      (a.single = false ∧ pyTruthy a.input = true)) ∧
    (selectMode a = Mode.interactive ↔
      (a.single = false ∧ pyTruthy a.input = false)) ∧
    selectMode a ≠ Mode.fallback ∧
    (selectMode a = Mode.csv →
      cli a stdin fs =
        csvOutcome (process_csv (fs (a.input.getD ""))) a.out) := by
  cases hs : a.single <;> cases ht : pyTruthy a.input <;>
    simp [selectMode, hs, ht, cli]

/-- Witness for claim C4 as amended: with a CSV path and no --single flag,
CSV mode is selected and cli renders exactly the rows process_csv produces
from the file at that path. -/
theorem selectMode_three_modes_witness :
    cli
        { input := some "cards.csv", out := "output", single := false
          company := none, name := none, gender := none, dob := none
          mobile := none, address := none }
        []
        (fun _ =>
          { header := ["company", "name", "gender", "dob", "mobile",
              "address"]
            rows := [["Acme", "Jane Doe", "F", "1990-01-01", "5551234",
              "1 Main St"]] }) =
      { renders :=
          [({ company := "Acme", name := "Jane Doe", gender := "F"
              dob := "1990-01-01", mobile := "5551234"
              address := "1 Main St" }, "output")]
        exit := ExitStatus.ok } :=
  ((selectMode_three_modes _ [] _).2.2.2.2 (by decide)).trans (by decide)

/-!
Theorems for the claim about interactive mode.
-/

/-- The retry loop for one field: any number of blank (empty after
stripping) lines are re-prompted past without advancing, and the first
line that strips to a non-empty value is accepted, stripped, leaving the
remaining lines untouched.  One prompt is printed per attempt. -/
theorem askFieldLoop_blanks (f : String) (b : List String) (v : String)
    (rest : List String) (hb : ∀ l ∈ b, pyStrip l = "")
    (hv : pyStrip v ≠ "") :
    askFieldLoop f (b ++ v :: rest) =
      (List.replicate (b.length + 1) (promptOf f),
        some (pyStrip v, rest)) := by
  induction b with
  | nil => simp [askFieldLoop, hv]
  | cons x xs ih =>
      have hx : pyStrip x = "" := hb x (by simp)
      have ih2 := ih (fun l hl => hb l (by simp [hl]))
      simp [askFieldLoop, hx, ih2, List.replicate_succ]

/-- Claim C5: in interactive mode, the program prompts for the six fields
in the fixed order company, name, gender, dob, mobile, address; at each
prompt every blank (empty or whitespace-only) line is re-asked without
advancing, the first non-empty trimmed response is accepted as the field
value, and once all six are collected exactly one card is rendered. -/
theorem cli_interactive_mode (a : Args) (fs : String → Csv)
    (ha1 : a.single = false) (ha2 : pyTruthy a.input = false)
    (b1 b2 b3 b4 b5 b6 : List String) (v1 v2 v3 v4 v5 v6 : String)
    (rest : List String)
    (hb1 : ∀ l ∈ b1, pyStrip l = "") (hb2 : ∀ l ∈ b2, pyStrip l = "")
    (hb3 : ∀ l ∈ b3, pyStrip l = "") (hb4 : ∀ l ∈ b4, pyStrip l = "")
    (hb5 : ∀ l ∈ b5, pyStrip l = "") (hb6 : ∀ l ∈ b6, pyStrip l = "")
    (hv1 : pyStrip v1 ≠ "") (hv2 : pyStrip v2 ≠ "")
    (hv3 : pyStrip v3 ≠ "") (hv4 : pyStrip v4 ≠ "")
    (hv5 : pyStrip v5 ≠ "") (hv6 : pyStrip v6 ≠ "") :
    interactiveRun
        (b1 ++ v1 :: (b2 ++ v2 :: (b3 ++ v3 :: (b4 ++ v4 ::
          (b5 ++ v5 :: (b6 ++ v6 :: rest)))))) =
      (List.replicate (b1.length + 1) (promptOf "company") ++
        (List.replicate (b2.length + 1) (promptOf "name") ++
          (List.replicate (b3.length + 1) (promptOf "gender") ++
            (List.replicate (b4.length + 1) (promptOf "dob") ++
              (List.replicate (b5.length + 1) (promptOf "mobile") ++
                List.replicate (b6.length + 1) (promptOf "address"))))),
        some
          ({ company := pyStrip v1, name := pyStrip v2
             gender := pyStrip v3, dob := pyStrip v4
             mobile := pyStrip v5, address := pyStrip v6 }, rest)) ∧
    cli a
        (b1 ++ v1 :: (b2 ++ v2 :: (b3 ++ v3 :: (b4 ++ v4 ::
          (b5 ++ v5 :: (b6 ++ v6 :: rest)))))) fs =
      { renders :=
          [({ company := pyStrip v1, name := pyStrip v2
              gender := pyStrip v3, dob := pyStrip v4
              mobile := pyStrip v5, address := pyStrip v6 }, a.out)]
        exit := ExitStatus.ok } := by
  have e1 := askFieldLoop_blanks "company" b1 v1
    (b2 ++ v2 :: (b3 ++ v3 :: (b4 ++ v4 :: (b5 ++ v5 ::
      (b6 ++ v6 :: rest))))) hb1 hv1
  have e2 := askFieldLoop_blanks "name" b2 v2
    (b3 ++ v3 :: (b4 ++ v4 :: (b5 ++ v5 :: (b6 ++ v6 :: rest)))) hb2 hv2
  have e3 := askFieldLoop_blanks "gender" b3 v3
    (b4 ++ v4 :: (b5 ++ v5 :: (b6 ++ v6 :: rest))) hb3 hv3
  have e4 := askFieldLoop_blanks "dob" b4 v4
    (b5 ++ v5 :: (b6 ++ v6 :: rest)) hb4 hv4
  have e5 := askFieldLoop_blanks "mobile" b5 v5
    (b6 ++ v6 :: rest) hb5 hv5
  have e6 := askFieldLoop_blanks "address" b6 v6 rest hb6 hv6
  have hrun : interactiveRun
      (b1 ++ v1 :: (b2 ++ v2 :: (b3 ++ v3 :: (b4 ++ v4 ::
        (b5 ++ v5 :: (b6 ++ v6 :: rest)))))) =
      (List.replicate (b1.length + 1) (promptOf "company") ++
        (List.replicate (b2.length + 1) (promptOf "name") ++
          (List.replicate (b3.length + 1) (promptOf "gender") ++
            (List.replicate (b4.length + 1) (promptOf "dob") ++
              (List.replicate (b5.length + 1) (promptOf "mobile") ++
                List.replicate (b6.length + 1) (promptOf "address"))))),
        some
          ({ company := pyStrip v1, name := pyStrip v2
             gender := pyStrip v3, dob := pyStrip v4
             mobile := pyStrip v5, address := pyStrip v6 }, rest)) := by
    simp [interactiveRun, requiredFields, fillFields, e1, e2, e3, e4, e5,
      e6, setField]
  refine ⟨hrun, ?_⟩
  simp [cli, selectMode, ha1, ha2, hrun]

/-- Witness for claim C5: a blank line before the company value makes the
company prompt appear twice, each later field is asked once, values are
stripped, and exactly one card is rendered. -/
theorem cli_interactive_mode_witness :
    cli
        { input := none, out := "output", single := false
          company := none, name := none, gender := none, dob := none
          mobile := none, address := none }
        ["", " Acme ", "Jane Doe", "F", "1990-01-01", "5551234",
          "1 Main St"]
        (fun _ => { header := [], rows := [] }) =
      { renders :=
          [({ company := pyStrip " Acme ", name := pyStrip "Jane Doe"
              gender := pyStrip "F", dob := pyStrip "1990-01-01"
              mobile := pyStrip "5551234"
              address := pyStrip "1 Main St" }, "output")]
        exit := ExitStatus.ok } :=
  (cli_interactive_mode
      { input := none, out := "output", single := false
        company := none, name := none, gender := none, dob := none
        mobile := none, address := none }
      (fun _ => { header := [], rows := [] }) rfl rfl
      [""] [] [] [] [] []
      " Acme " "Jane Doe" "F" "1990-01-01" "5551234" "1 Main St" []
      (by decide) (by decide) (by decide) (by decide) (by decide)
      (by decide) (by decide) (by decide) (by decide) (by decide)
      (by decide) (by decide)).2

/-!
Theorems for the claims about process_csv.  First some facts about header
lookup.
-/

/-- A last-occurrence index is always within the header. -/
theorem lastIdxOf_lt_length (hd : List String) (col : String) (i : Nat)
    (h : lastIdxOf hd col = some i) : i < hd.length := by
  induction hd generalizing i with
  | nil => simp [lastIdxOf] at h
  | cons y ys ih =>
      rw [lastIdxOf] at h
      cases hj : lastIdxOf ys col with
      | some j =>
          rw [hj] at h
          cases h
          exact Nat.succ_lt_succ (ih j hj)
      | none =>
          rw [hj] at h
          by_cases hy : y = col
          · simp [hy] at h
            simp [← h]
          · simp [hy] at h

/-- A column that occurs in the header has a last-occurrence index. -/
theorem lastIdxOf_isSome_of_mem (hd : List String) (col : String)
    (h : col ∈ hd) : (lastIdxOf hd col).isSome := by
  induction hd with
  | nil => simp at h
  | cons y ys ih =>
      rw [lastIdxOf]
      cases hj : lastIdxOf ys col with
      | some j => simp
      | none =>
          rcases List.mem_cons.mp h with hy | hy
          · simp [hy]
          · have := ih hy
            rw [hj] at this
            simp at this

/-- A column that does not occur in the header has no index: looking it up
raises KeyError. -/
theorem lastIdxOf_eq_none_of_not_mem (hd : List String) (col : String)
    (h : col ∉ hd) : lastIdxOf hd col = none := by
  induction hd with
  | nil => rfl
  | cons y ys ih =>
      rw [lastIdxOf]
      have hy : ¬y = col := fun hc => h (by simp [hc])
      have hys : col ∉ ys := fun hc => h (List.mem_cons_of_mem y hc)
      rw [ih hys]
      simp [hy]

/-- When the column occurs in the header and the row covers the header
length, the lookup succeeds with the cell string. -/
theorem getCell_ok (hd row : List String) (col : String) (hc : col ∈ hd)
    (hlen : hd.length ≤ row.length) :
    getCell hd row col = Except.ok (cellOf hd row col) := by
  have hs := lastIdxOf_isSome_of_mem hd col hc
  obtain ⟨i, hi⟩ := Option.isSome_iff_exists.mp hs
  have hlt : i < row.length :=
    lt_of_lt_of_le (lastIdxOf_lt_length hd col i hi) hlen
  have hv : row.get? i = some (row.get ⟨i, hlt⟩) := List.get?_eq_get hlt
  simp only [getCell, rowValue, cellOf, hi, hv, Option.getD_some]

/-- A row that covers a header containing all six required columns is read
successfully into its clean record. -/
theorem readRow_ok (hd row : List String)
    (hmem : ∀ col ∈ requiredFields, col ∈ hd)
    (hlen : hd.length ≤ row.length) :
    readRow hd row = Except.ok (cleanRow hd row) := by
  have c1 := getCell_ok hd row "company" (hmem _ (by decide)) hlen
  have c2 := getCell_ok hd row "name" (hmem _ (by decide)) hlen
  have c3 := getCell_ok hd row "gender" (hmem _ (by decide)) hlen
  have c4 := getCell_ok hd row "dob" (hmem _ (by decide)) hlen
  have c5 := getCell_ok hd row "mobile" (hmem _ (by decide)) hlen
  have c6 := getCell_ok hd row "address" (hmem _ (by decide)) hlen
  simp [readRow, c1, c2, c3, c4, c5, c6, cleanRow]

/-- When every row reads successfully, the loop renders every row in file
order and finishes without error. -/
theorem processRows_all_ok (hd : List String) (rows : List (List String))
    (h : ∀ row ∈ rows, readRow hd row = Except.ok (cleanRow hd row)) :
    processRows hd rows = (rows.map (cleanRow hd), none) := by
  induction rows with
  | nil => rfl
  | cons r rs ih =>
      have hr := h r (by simp)
      have ih2 := ih (fun x hx => h x (by simp [hx]))
      simp [processRows, hr, ih2]

/-- Claim C2: for every CSV file whose header has the six required columns
and whose N data rows each cover the header, process_csv invokes the
renderer exactly once per data row, in file order, on the record whose six
fields are the row's cells for those columns with whitespace stripped. -/
theorem process_csv_render_per_row (c : Csv)
    (hmem : ∀ col ∈ requiredFields, col ∈ c.header)
    (hlen : ∀ row ∈ c.rows, c.header.length ≤ row.length) :
    process_csv c = (c.rows.map (cleanRow c.header), none) ∧
    (process_csv c).1.length = c.rows.length ∧
    ∀ row ∈ c.rows, cleanRow c.header row =
      { company := pyStrip (cellOf c.header row "company")
        name := pyStrip (cellOf c.header row "name")
        gender := pyStrip (cellOf c.header row "gender")
        dob := pyStrip (cellOf c.header row "dob")
        mobile := pyStrip (cellOf c.header row "mobile")
        address := pyStrip (cellOf c.header row "address") } := by
  have hne : 0 < c.header.length :=
    List.length_pos_of_mem (hmem "company" (by decide))
  have hfilter : c.rows.filter (fun r => !r.isEmpty) = c.rows := by
    apply List.filter_eq_self.mpr
    intro r hr
    have : 0 < r.length := lt_of_lt_of_le hne (hlen r hr)
    cases r with
    | nil => simp at this
    | cons x xs => simp
  have hmain : process_csv c = (c.rows.map (cleanRow c.header), none) := by
    rw [process_csv, hfilter]
    exact processRows_all_ok c.header c.rows
      (fun row hr => readRow_ok c.header row hmem (hlen row hr))
  refine ⟨hmain, ?_, ?_⟩
  · rw [hmain]
    simp
  · intro row hr
    rfl

/-- Witness for claim C2: a two-row CSV with the required header renders
exactly two records, in file order, with stripped fields. -/
theorem process_csv_render_per_row_witness :
    process_csv
        { header := ["company", "name", "gender", "dob", "mobile",
            "address"]
          rows := [["Acme", " Jane Doe ", "F", "1990-01-01", "5551234",
            "1 Main St"],
            ["Globex", "John Roe", "M", "1985-05-05", "5556789",
              "2 Elm St"]] } =
      ([{ company := "Acme", name := "Jane Doe", gender := "F"
          dob := "1990-01-01", mobile := "5551234"
          address := "1 Main St" },
        { company := "Globex", name := "John Roe", gender := "M"
          dob := "1985-05-05", mobile := "5556789"
          address := "2 Elm St" }], none) :=
  ((process_csv_render_per_row
      { header := ["company", "name", "gender", "dob", "mobile",
          "address"]
        rows := [["Acme", " Jane Doe ", "F", "1990-01-01", "5551234",
          "1 Main St"],
          ["Globex", "John Roe", "M", "1985-05-05", "5556789",
            "2 Elm St"]] }
      (by decide) (by decide)).1).trans (by decide)

/-!
Idempotence of stripping, and inversion lemmas used for the record
invariant and the error-path claims.
-/

/-- If a list is unchanged by a front drop, so is its back-dropped
version: the back drop only removes a suffix, so the head still fails the
predicate. -/
theorem dropWhile_rdropWhile_self {α : Type} (p : α → Bool) (l : List α)
    (h : l.dropWhile p = l) :
    (l.rdropWhile p).dropWhile p = l.rdropWhile p := by
  cases l with
  | nil => simp [List.rdropWhile]
  | cons x xs =>
      have hp : ¬p x = true := by
        have hx := List.dropWhile_eq_self_iff.mp h (by simp)
        simpa using hx
      obtain ⟨t, ht⟩ := List.rdropWhile_prefix p (x :: xs)
      cases hr : (x :: xs).rdropWhile p with
      | nil => simp
      | cons y ys =>
          rw [hr] at ht
          have hyx : y = x := by
            have hcons : y :: (ys ++ t) = x :: xs := by simpa using ht
            exact (List.cons_eq_cons.mp hcons).1
          subst hyx
          exact List.dropWhile_cons_of_neg hp

/-- Stripping is idempotent on character lists. -/
theorem stripChars_idem (l : List Char) :
    stripChars (stripChars l) = stripChars l := by
  unfold stripChars
  rw [dropWhile_rdropWhile_self Char.isWhitespace
    (l.dropWhile Char.isWhitespace) (List.dropWhile_idempotent _ _),
    List.rdropWhile_idempotent]

/-- Stripping is idempotent: a stripped string is already trimmed. -/
theorem pyStrip_idem (s : String) : pyStrip (pyStrip s) = pyStrip s := by
  simp [pyStrip, stripChars_idem]

/-- An accepted interactive answer is a stripped, non-empty string. -/
theorem askFieldLoop_accepted (f : String) (lines ps : List String)
    (v : String) (rest : List String)
    (h : askFieldLoop f lines = (ps, some (v, rest))) :
    pyStrip v = v ∧ v ≠ "" := by
  induction lines generalizing ps with
  | nil => simp [askFieldLoop] at h
  | cons l ls ih =>
      rw [askFieldLoop] at h
      by_cases hl : pyStrip l = ""
      · rw [if_pos hl] at h
        cases hrec : askFieldLoop f ls with
        | mk ps2 r =>
            rw [hrec] at h
            injection h with h1 h2
            exact ih ps2 (by rw [hrec, h2])
      · rw [if_neg hl] at h
        injection h with h1 h2
        injection h2 with h3
        injection h3 with h4 h5
        constructor
        · rw [← h4, pyStrip_idem]
        · rw [← h4]
          exact hl

/-- A successful cell lookup means the column is present and the cell is
an actual string. -/
theorem getCell_ok_rowValue (hd row : List String) (col v : String)
    (h : getCell hd row col = Except.ok v) :
    rowValue hd row col = some (some v) := by
  unfold getCell at h
  cases hr : rowValue hd row col with
  | none =>
      rw [hr] at h
      simp at h
  | some o =>
      rw [hr] at h
      cases o with
      | none => simp at h
      | some w =>
          simp at h
          rw [h]

/-- Inversion of a successful row read: the produced record is the clean
record of the row, and every required column was looked up
successfully. -/
theorem readRow_ok_inv (hd row : List String) (d : CardData)
    (h : readRow hd row = Except.ok d) :
    d = cleanRow hd row ∧
    ∀ col ∈ requiredFields, ∃ v, getCell hd row col = Except.ok v := by
  unfold readRow at h
  cases g1 : getCell hd row "company" with
  | error e =>
      rw [g1] at h
      simp at h
  | ok v1 =>
  rw [g1] at h
  cases g2 : getCell hd row "name" with
  | error e =>
      rw [g2] at h
      simp at h
  | ok v2 =>
  rw [g2] at h
  cases g3 : getCell hd row "gender" with
  | error e =>
      rw [g3] at h
      simp at h
  | ok v3 =>
  rw [g3] at h
  cases g4 : getCell hd row "dob" with
  | error e =>
      rw [g4] at h
      simp at h
  | ok v4 =>
  rw [g4] at h
  cases g5 : getCell hd row "mobile" with
  | error e =>
      rw [g5] at h
      simp at h
  | ok v5 =>
  rw [g5] at h
  cases g6 : getCell hd row "address" with
  | error e =>
      rw [g6] at h
      simp at h
  | ok v6 =>
  rw [g6] at h
  have hrec :
      ({ company := pyStrip v1, name := pyStrip v2, gender := pyStrip v3
         dob := pyStrip v4, mobile := pyStrip v5
         address := pyStrip v6 } : CardData) = d := Except.ok.inj h
  have e1 := getCell_ok_rowValue hd row "company" v1 g1
  have e2 := getCell_ok_rowValue hd row "name" v2 g2
  have e3 := getCell_ok_rowValue hd row "gender" v3 g3
  have e4 := getCell_ok_rowValue hd row "dob" v4 g4
  have e5 := getCell_ok_rowValue hd row "mobile" v5 g5
  have e6 := getCell_ok_rowValue hd row "address" v6 g6
  constructor
  · rw [← hrec]
    simp [cleanRow, cellOf, e1, e2, e3, e4, e5, e6]
  · intro col hc
    simp only [requiredFields, List.mem_cons, List.not_mem_nil,
      or_false] at hc
    rcases hc with rfl | rfl | rfl | rfl | rfl | rfl
    · exact ⟨v1, g1⟩
    · exact ⟨v2, g2⟩
    · exact ⟨v3, g3⟩
    · exact ⟨v4, g4⟩
    · exact ⟨v5, g5⟩
    · exact ⟨v6, g6⟩

/-- Inversion of a completed interactive run: every field of the record
handed to the renderer is a stripped, non-empty value. -/
theorem interactiveRun_fields (lines ps : List String) (d : CardData)
    (rest : List String)
    (h : interactiveRun lines = (ps, some (d, rest))) :
    (pyStrip d.company = d.company ∧ d.company ≠ "") ∧
    (pyStrip d.name = d.name ∧ d.name ≠ "") ∧
    (pyStrip d.gender = d.gender ∧ d.gender ≠ "") ∧
    (pyStrip d.dob = d.dob ∧ d.dob ≠ "") ∧
    (pyStrip d.mobile = d.mobile ∧ d.mobile ≠ "") ∧
    (pyStrip d.address = d.address ∧ d.address ≠ "") := by
  unfold interactiveRun requiredFields at h
  simp only [fillFields] at h
  rcases a1 : askFieldLoop "company" lines with ⟨ps1, r1⟩
  rw [a1] at h
  cases r1 with
  | none => simp at h
  | some p1 =>
  obtain ⟨v1, l1⟩ := p1
  simp only [] at h
  rcases a2 : askFieldLoop "name" l1 with ⟨ps2, r2⟩
  rw [a2] at h
  cases r2 with
  | none => simp at h
  | some p2 =>
  obtain ⟨v2, l2⟩ := p2
  simp only [] at h
  rcases a3 : askFieldLoop "gender" l2 with ⟨ps3, r3⟩
  rw [a3] at h
  cases r3 with
  | none => simp at h
  | some p3 =>
  obtain ⟨v3, l3⟩ := p3
  simp only [] at h
  rcases a4 : askFieldLoop "dob" l3 with ⟨ps4, r4⟩
  rw [a4] at h
  cases r4 with
  | none => simp at h
  | some p4 =>
  obtain ⟨v4, l4⟩ := p4
  simp only [] at h
  rcases a5 : askFieldLoop "mobile" l4 with ⟨ps5, r5⟩
  rw [a5] at h
  cases r5 with
  | none => simp at h
  | some p5 =>
  obtain ⟨v5, l5⟩ := p5
  simp only [] at h
  rcases a6 : askFieldLoop "address" l5 with ⟨ps6, r6⟩
  rw [a6] at h
  cases r6 with
  | none => simp at h
  | some p6 =>
  obtain ⟨v6, l6⟩ := p6
  simp only [setField] at h
  have g1 := askFieldLoop_accepted "company" lines ps1 v1 l1 a1
  have g2 := askFieldLoop_accepted "name" l1 ps2 v2 l2 a2
  have g3 := askFieldLoop_accepted "gender" l2 ps3 v3 l3 a3
  have g4 := askFieldLoop_accepted "dob" l3 ps4 v4 l4 a4
  have g5 := askFieldLoop_accepted "mobile" l4 ps5 v5 l5 a5
  have g6 := askFieldLoop_accepted "address" l5 ps6 v6 l6 a6
  have hd2 :
      ({ company := v1, name := v2, gender := v3, dob := v4, mobile := v5
         address := v6 } : CardData) = d := by
    have hpair := (Prod.mk.injEq _ _ _ _).mp h
    have hsome := hpair.2
    simp at hsome
    exact hsome.1
  rw [← hd2]
  exact ⟨g1, g2, g3, g4, g5, g6⟩

/-- Counterexample to claim C6: single mode passes the flag values to the
renderer verbatim, so a record with an untrimmed company and an empty name
reaches render_card. -/
theorem record_fields_counterexample :
    cli
        { input := none, out := "output", single := true
          company := some " Acme ", name := some "", gender := some "M"
          dob := some "2000-01-01", mobile := some "5550000"
          address := some "3 Oak St" }
        [] (fun _ => { header := [], rows := [] }) =
      { renders :=
          [({ company := " Acme ", name := "", gender := "M"
              dob := "2000-01-01", mobile := "5550000"
              address := "3 Oak St" }, "output")]
        exit := ExitStatus.ok } ∧
    pyStrip " Acme " ≠ " Acme " ∧
    ({ company := " Acme ", name := "", gender := "M"
       dob := "2000-01-01", mobile := "5550000"
       address := "3 Oak St" } : CardData).name = "" := by
  decide

/-- Claim C6 as amended: a record built from a CSV row has all six fields
trimmed (though possibly empty); a record built by interactive prompts has
all six fields trimmed and non-empty; a record built in single mode is the
flag values verbatim, neither trimmed nor checked for non-emptiness. -/
theorem record_fields_by_mode :
    (∀ hd row d, readRow hd row = Except.ok d →
      pyStrip d.company = d.company ∧ pyStrip d.name = d.name ∧
      pyStrip d.gender = d.gender ∧ pyStrip d.dob = d.dob ∧
      pyStrip d.mobile = d.mobile ∧ pyStrip d.address = d.address) ∧
    (∀ lines ps d rest, interactiveRun lines = (ps, some (d, rest)) →
      (pyStrip d.company = d.company ∧ d.company ≠ "") ∧
      (pyStrip d.name = d.name ∧ d.name ≠ "") ∧
      (pyStrip d.gender = d.gender ∧ d.gender ≠ "") ∧
      (pyStrip d.dob = d.dob ∧ d.dob ≠ "") ∧
      (pyStrip d.mobile = d.mobile ∧ d.mobile ≠ "") ∧
      (pyStrip d.address = d.address ∧ d.address ≠ "")) ∧
    (∀ a : Args, ∀ v : String,
      (a.company = some v → (singleData a).company = v) ∧
      (a.name = some v → (singleData a).name = v) ∧
      (a.gender = some v → (singleData a).gender = v) ∧
      (a.dob = some v → (singleData a).dob = v) ∧
      (a.mobile = some v → (singleData a).mobile = v) ∧
      (a.address = some v → (singleData a).address = v)) := by
  refine ⟨?_, ?_, ?_⟩
  · intro hd row d h
    obtain ⟨hc, -⟩ := readRow_ok_inv hd row d h
    subst hc
    simp [cleanRow, pyStrip_idem]
  · intro lines ps d rest h
    exact interactiveRun_fields lines ps d rest h
  · intro a v
    refine ⟨?_, ?_, ?_, ?_, ?_, ?_⟩ <;> intro hv <;> simp [singleData, hv]

/-- Witness for claim C6 as amended: a CSV row with padded cells is read
into a record whose fields are all trimmed. -/
theorem record_fields_by_mode_witness :
    pyStrip "Acme" = "Acme" ∧ pyStrip "Jane Doe" = "Jane Doe" ∧
    pyStrip "F" = "F" ∧ pyStrip "1990-01-01" = "1990-01-01" ∧
    pyStrip "5551234" = "5551234" ∧ pyStrip "1 Main St" = "1 Main St" :=
  record_fields_by_mode.1
    ["company", "name", "gender", "dob", "mobile", "address"]
    ["  Acme  ", " Jane Doe ", "F", "1990-01-01", "5551234", "1 Main St"]
    { company := "Acme", name := "Jane Doe", gender := "F"
      dob := "1990-01-01", mobile := "5551234", address := "1 Main St" }
    (by decide)

/-- Counterexample to claim C7: a ragged row with one cell more than the
header does not surface as a parse error; it is processed normally and the
extra cell is silently ignored. -/
theorem process_csv_ragged_counterexample :
    process_csv
        { header := ["company", "name", "gender", "dob", "mobile",
            "address"]
          rows := [["Acme", "Jane Doe", "F", "1990-01-01", "5551234",
            "1 Main St", "EXTRA"]] } =
      ([{ company := "Acme", name := "Jane Doe", gender := "F"
          dob := "1990-01-01", mobile := "5551234"
          address := "1 Main St" }], none) := by
  decide

/-- Claim C7 as amended: the row loop renders every row before the first
failing one and aborts at the failure, so no row is skipped silently and
the failing row is never rendered; a required column absent from the
header makes every row fail with a propagated error; but ragged rows do
not surface as CSV parse errors: a row shorter than the six-column header
fails with an attribute error on the None fill value, and a row with extra
cells is processed normally. -/
theorem process_csv_error_paths :
    (∀ hd pre row post e,
      (∀ x ∈ pre, readRow hd x = Except.ok (cleanRow hd x)) →
      readRow hd row = Except.error e →
      processRows hd (pre ++ row :: post) =
        (pre.map (cleanRow hd), some e)) ∧
    (∀ hd row col, col ∈ requiredFields → col ∉ hd →
      ∃ e, readRow hd row = Except.error e) ∧
    (∀ row : List String, row.length < 6 →
      ∃ col, readRow requiredFields row =
        Except.error (CsvErr.noneStrip col)) ∧
    (∀ row : List String, 6 ≤ row.length →
      readRow requiredFields row =
        Except.ok (cleanRow requiredFields row)) := by
  refine ⟨?_, ?_, ?_, ?_⟩
  · intro hd pre row post e hpre hrow
    induction pre with
    | nil => simp [processRows, hrow]
    | cons x xs ih =>
        have hx := hpre x (by simp)
        have ih2 := ih (fun y hy => hpre y (by simp [hy]))
        simp [processRows, hx, ih2]
  · intro hd row col hc hnot
    cases hro : readRow hd row with
    | error e => exact ⟨e, rfl⟩
    | ok d =>
        obtain ⟨-, hall⟩ := readRow_ok_inv hd row d hro
        obtain ⟨v, hv⟩ := hall col hc
        have hkey : getCell hd row col =
            Except.error (CsvErr.keyError col) := by
          simp [getCell, rowValue, lastIdxOf_eq_none_of_not_mem hd col hnot]
        rw [hkey] at hv
        simp at hv
  · intro row hlen
    rcases row with _ | ⟨a, _ | ⟨b, _ | ⟨c, _ | ⟨d1, _ | ⟨e1, _ |
      ⟨f1, tail⟩⟩⟩⟩⟩⟩
    · exact ⟨"company", rfl⟩
    · exact ⟨"name", rfl⟩
    · exact ⟨"gender", rfl⟩
    · exact ⟨"dob", rfl⟩
    · exact ⟨"mobile", rfl⟩
    · exact ⟨"address", rfl⟩
    · simp only [List.length_cons] at hlen
      omega
  · intro row hlen
    exact readRow_ok requiredFields row (fun col hc => hc) hlen

/-- Witness for claim C7 as amended: a batch whose second row is too short
renders exactly the first row and aborts with the attribute error of the
second, never rendering the second or third row. -/
theorem process_csv_error_paths_witness :
    processRows ["company", "name", "gender", "dob", "mobile", "address"]
        [["Acme", "Jane Doe", "F", "1990-01-01", "5551234", "1 Main St"],
          ["OnlyCompany"],
          ["Globex", "John Roe", "M", "1985-05-05", "5556789",
            "2 Elm St"]] =
      ([{ company := "Acme", name := "Jane Doe", gender := "F"
          dob := "1990-01-01", mobile := "5551234"
          address := "1 Main St" }],
        some (CsvErr.noneStrip "name")) :=
  (process_csv_error_paths.1
      ["company", "name", "gender", "dob", "mobile", "address"]
      [["Acme", "Jane Doe", "F", "1990-01-01", "5551234", "1 Main St"]]
      ["OnlyCompany"]
      [["Globex", "John Roe", "M", "1985-05-05", "5556789", "2 Elm St"]]
      (CsvErr.noneStrip "name")
      (by decide) (by decide)).trans (by decide)
